import Mathlib

/-!
Verification of the rigid-body simulation synchronization layer
(`source/blender/blenkernel/intern/rigidbody.c`).

C `float`/`double` values are modelled as exact rationals (`ℚ`), machine
integers as `Int`/`Nat`, nullable pointers as `Option`, and calls into the
opaque dynamics engine (`RB_*` functions of `RBI_api.h`) as events recorded
in an explicit trace list.  C bit-flag operations on the `flag` bitfields
become updates of `Bool` record fields.
-/

/-- Truncation of a rational towards zero, the semantics of a C cast from a
floating point value to `int`. -/
def cTruncInt (q : ℚ) : Int := Int.tdiv q.num (Int.ofNat q.den)

/-! ## Breaking-threshold evaluator (`BKE_rigidbody_calc_threshold`,
`BKE_rigidbody_calc_max_con_mass`) -/

/-- The `mass` field of a `RigidBodyOb`, the only field these functions read. -/
structure RigidBodyMass where
  mass : ℚ
deriving Repr, DecidableEq

/-- A `MeshIsland` as seen by the threshold evaluator: a nullable `rigidbody`
pointer. -/
structure MeshIslandMass where
  rigidbody : Option RigidBodyMass
deriving Repr, DecidableEq

/-- A `RigidBodyShardCon` as seen by the threshold evaluator: two nullable
endpoint islands and the stored `breaking_threshold`. -/
structure ShardConThresh where
  mi1 : Option MeshIslandMass
  mi2 : Option MeshIslandMass
  breaking_threshold : ℚ
deriving Repr, DecidableEq

/-- The fields of `FractureModifierData` read by `BKE_rigidbody_calc_threshold`. -/
structure FractureThreshCfg where
  use_mass_dependent_thresholds : Bool
  breaking_threshold : ℚ
deriving Repr, DecidableEq

/-- The loop body of `BKE_rigidbody_calc_max_con_mass`: running maximum of the
combined endpoint mass over constraints whose two endpoints and their
rigid bodies are all non-null (`max_con_mass` starts at `0`). -/
def maxConMassList (cons : List ShardConThresh) : ℚ :=
  cons.foldl (fun max_con_mass con =>
    match con.mi1, con.mi2 with
    | some m1, some m2 =>
      match m1.rigidbody, m2.rigidbody with
      | some r1, some r2 =>
        let con_mass := r1.mass + r2.mass
        if con_mass > max_con_mass then con_mass else max_con_mass
      | _, _ => max_con_mass
    | _, _ => max_con_mass) 0

/-- `BKE_rigidbody_calc_max_con_mass`: the object's first fracture modifier
(if any) is scanned; without one the function returns `0`. -/
def BKE_rigidbody_calc_max_con_mass (fractureCons : Option (List ShardConThresh)) : ℚ :=
  match fractureCons with
  | some cons => maxConMassList cons
  | none => 0

/-- `BKE_rigidbody_calc_threshold` (rigidbody.c:164-186). -/
def BKE_rigidbody_calc_threshold (max_con_mass : ℚ) (rmd : FractureThreshCfg)
    (con : ShardConThresh) : ShardConThresh :=
  if max_con_mass = 0 ∧ rmd.use_mass_dependent_thresholds then con
  else if con.mi1 = none ∨ con.mi2 = none then con
  else
    match con.mi1, con.mi2 with
    | some m1, some m2 =>
      match m1.rigidbody, m2.rigidbody with
      | some r1, some r2 =>
        let max_thresh := rmd.breaking_threshold
        let con_mass := r1.mass + r2.mass
        let thresh := if rmd.use_mass_dependent_thresholds then
          (con_mass / max_con_mass) * max_thresh else 0
        { con with breaking_threshold := thresh }
      | _, _ => con
    | _, _ => con

/-! ## Collision filter (`colgroup_check`, `filterCallback`) -/

/-- The fields of a `RigidBodyOb` read or written by `filterCallback`:
the collision-group bitmask and the flags `RBO_FLAG_KINEMATIC`,
`RBO_FLAG_KINEMATIC_REBUILD`, `RBO_FLAG_NEEDS_VALIDATE` and
`RBO_FLAG_USE_KINEMATIC_DEACTIVATION` of the `flag` bitfield. -/
structure RBOFilter where
  col_groups : Nat
  kinematic : Bool
  kinematic_rebuild : Bool
  needs_validate : Bool
  use_kinematic_deactivation : Bool
deriving Repr, DecidableEq

/-- A `MeshIsland` as seen by `filterCallback`: `miId` stands for the C
pointer identity of the island (used for the `mi1 == mi` comparison),
`linear_index` indexes the world's `cache_offset_map`. -/
structure MeshIslandF where
  miId : Nat
  linear_index : Nat
  rigidbody : RBOFilter
deriving Repr, DecidableEq

/-- A `RigidBodyShardCon` as seen by `filterCallback`: its engine handle and
the two flag bits the callback sets. -/
structure ShardConF where
  physics_constraint : Option Nat
  needs_validate : Bool
  use_kinematic_deactivation : Bool
deriving Repr, DecidableEq

/-- The fields of `FractureModifierData` used by `filterCallback`. -/
structure FractureModifierF where
  meshIslands : List MeshIslandF
  meshConstraints : List ShardConF
  use_constraints : Bool
deriving Repr, DecidableEq

/-- An `Object` as seen by `filterCallback`: its rigid-body settings and the
result of `modifiers_findByType(ob, eModifierType_Fracture)`. -/
structure ObjectF where
  rigidbody_object : RBOFilter
  fracture : Option FractureModifierF
deriving Repr, DecidableEq

/-- Junk object used for C array indexing out of bounds (undefined behaviour
in the source; never reached on well-formed worlds). -/
def objectFDefault : ObjectF :=
  { rigidbody_object :=
      { col_groups := 0, kinematic := false, kinematic_rebuild := false,
        needs_validate := false, use_kinematic_deactivation := false },
    fracture := none }

/-- The world state read by `filterCallback`: the index-map arrays
`objects` and `cache_offset_map`. -/
structure FilterWorldF where
  objects : List ObjectF
  cache_offset_map : List Nat
deriving Repr, DecidableEq

/-- `colgroup_check` (rigidbody.c:1604-1622): the two masks are compatible
iff they share a set bit among the lowest 20 bits. -/
def colgroup_check (group1 group2 : Nat) : Bool :=
  (List.range 20).any fun i =>
    let v1 := group1 &&& (1 <<< i)
    let v2 := group2 &&& (1 <<< i)
    decide (0 < v1) && decide (v1 = v2)

/-- Engine calls issued from inside `filterCallback`. -/
inductive FilterEvent where
  | removeConstraint : Option Nat → FilterEvent
deriving Repr, DecidableEq

/-- One side of the kinematic-activation side effect of `filterCallback`
(rigidbody.c:1688-1731 for `ob1`; 1733-1777 is the mirror image for `ob2`).
`participId` is the identity of the callback's own mesh-island argument on
this side (`mi1` resp. `mi2`), `none` when that argument is NULL. -/
def filterActivateSide (participId : Option Nat) (obSelf obOther : ObjectF) :
    ObjectF × List FilterEvent :=
  if obSelf.rigidbody_object.use_kinematic_deactivation then
    match obSelf.fracture with
    | some fmd =>
      let valid := obSelf.rigidbody_object.use_kinematic_deactivation
          && obOther.rigidbody_object.use_kinematic_deactivation
      let valid2 := !fmd.use_constraints
      if valid || valid2 then
        let islands := fmd.meshIslands.map fun mi =>
          if mi.rigidbody.kinematic && participId = some mi.miId then
            { mi with rigidbody := { mi.rigidbody with
                kinematic := false, kinematic_rebuild := true,
                needs_validate := true } }
          else mi
        let cons := fmd.meshConstraints.map fun con =>
          { con with needs_validate := true, use_kinematic_deactivation := true }
        let evs := fmd.meshConstraints.map fun con =>
          FilterEvent.removeConstraint con.physics_constraint
        let fmdUpd := { fmd with meshIslands := islands, meshConstraints := cons }
        ({ obSelf with fracture := some fmdUpd }, evs)
      else (obSelf, [])
    | none =>
      ({ obSelf with rigidbody_object := { obSelf.rigidbody_object with
          kinematic := false, kinematic_rebuild := true,
          needs_validate := true } }, [])
  else (obSelf, [])

/-- Result of one `filterCallback` invocation: the returned collide decision,
the two owning objects after the side effects, and the engine calls made.
The two owners are assumed to be distinct objects (the broad phase never
pairs a body with itself). -/
structure FilterResult where
  collide : Bool
  ob1 : ObjectF
  ob2 : ObjectF
  events : List FilterEvent
deriving Repr, DecidableEq

/-- Resolution of a body's owning object inside `filterCallback`: a shard is
resolved through `cache_offset_map`/`objects`, a plain body uses the blender
object passed by the engine (rigidbody.c:1646-1664). -/
def filterResolveOb (w : FilterWorldF) (island : Option MeshIslandF)
    (blenderOb : ObjectF) : ObjectF :=
  match island with
  | some mi => w.objects.getD (w.cache_offset_map.getD mi.linear_index 0) objectFDefault
  | none => blenderOb

/-- The `validOb` computation of `filterCallback` (rigidbody.c:1666-1682),
gating the kinematic-activation side effects. -/
def filterValidOb (w : FilterWorldF) (island1 island2 : Option MeshIslandF)
    (blenderOb1 blenderOb2 : ObjectF) : Bool :=
  let ob1 := filterResolveOb w island1 blenderOb1
  let ob2 := filterResolveOb w island2 blenderOb2
  let cg := colgroup_check ob1.rigidbody_object.col_groups ob2.rigidbody_object.col_groups
  match island1, island2 with
  | some mi1, some mi2 =>
    decide (w.cache_offset_map.getD mi1.linear_index 0
      ≠ w.cache_offset_map.getD mi2.linear_index 0)
    && cg && (mi1.rigidbody.kinematic || mi2.rigidbody.kinematic)
  | none, some mi2 =>
    cg && (ob1.rigidbody_object.kinematic || mi2.rigidbody.kinematic)
  | some mi1, none =>
    cg && (mi1.rigidbody.kinematic || ob2.rigidbody_object.kinematic)
  | none, none =>
    cg && (ob1.rigidbody_object.kinematic || ob2.rigidbody_object.kinematic)

/-- `filterCallback` (rigidbody.c:1625-1781). -/
def filterCallback (rbw : Option FilterWorldF) (island1 island2 : Option MeshIslandF)
    (blenderOb1 blenderOb2 : ObjectF) : FilterResult :=
  match rbw with
  | none => { collide := true, ob1 := blenderOb1, ob2 := blenderOb2, events := [] }
  | some w =>
    let ob1 := filterResolveOb w island1 blenderOb1
    let ob2 := filterResolveOb w island2 blenderOb2
    let cg := colgroup_check ob1.rigidbody_object.col_groups ob2.rigidbody_object.col_groups
    if filterValidOb w island1 island2 blenderOb1 blenderOb2 then
      let s1 := filterActivateSide (island1.map fun mi => mi.miId) ob1 ob2
      let s2 := filterActivateSide (island2.map fun mi => mi.miId) ob2 ob1
      { collide := cg, ob1 := s1.1, ob2 := s2.1, events := s1.2 ++ s2.2 }
    else
      { collide := cg, ob1 := ob1, ob2 := ob2, events := [] }

/-- C4 counterexample to the claim as stated: a pair of plain (non-shard)
bodies whose owners share collision-group bit 0 but where neither side has
the kinematic flag set; `filterCallback` nevertheless returns should-collide,
so the returned decision is not conjoined with the kinematic condition. -/
theorem C4_counterexample :
    (filterCallback (some { objects := [], cache_offset_map := [] }) none none
      { rigidbody_object :=
          { col_groups := 1, kinematic := false, kinematic_rebuild := false,
            needs_validate := false, use_kinematic_deactivation := false },
        fracture := none }
      { rigidbody_object :=
          { col_groups := 1, kinematic := false, kinematic_rebuild := false,
            needs_validate := false, use_kinematic_deactivation := false },
        fracture := none }).collide = true
    ∧ (colgroup_check 1 1
        && (false || false)) = false := by decide

/-- C4 (amended): with a non-null world, the value `filterCallback` returns
is exactly `colgroup_check` on the two resolved owners' collision-group
masks — they collide iff the masks share a set bit among the lowest 20 bits;
the kinematic-activatable condition enters only `validOb`, which gates the
side effects, not the returned decision. -/
theorem C4_filter_returns_colgroup_only (w : FilterWorldF)
    (island1 island2 : Option MeshIslandF) (blenderOb1 blenderOb2 : ObjectF) :
    (filterCallback (some w) island1 island2 blenderOb1 blenderOb2).collide
      = colgroup_check
          (filterResolveOb w island1 blenderOb1).rigidbody_object.col_groups
          (filterResolveOb w island2 blenderOb2).rigidbody_object.col_groups := by
  simp only [filterCallback]
  split <;> rfl

/-- Unfolding of `filterActivateSide` on the enabled path: owner flags
kinematic-deactivation, has a fracture modifier, and either both owners flag
kinematic-deactivation or the modifier has constraints disabled. -/
lemma filterActivateSide_enabled (pid : Nat) (obSelf obOther : ObjectF)
    (fmd : FractureModifierF)
    (hKD : obSelf.rigidbody_object.use_kinematic_deactivation = true)
    (hfr : obSelf.fracture = some fmd)
    (hcond : ((obSelf.rigidbody_object.use_kinematic_deactivation
        && obOther.rigidbody_object.use_kinematic_deactivation)
      || !fmd.use_constraints) = true) :
    filterActivateSide (some pid) obSelf obOther
      = ({ obSelf with
            fracture := some { fmd with
              meshIslands := fmd.meshIslands.map fun mi =>
                if mi.rigidbody.kinematic && some pid = some mi.miId then
                  { mi with rigidbody := { mi.rigidbody with
                      kinematic := false, kinematic_rebuild := true,
                      needs_validate := true } }
                else mi,
              meshConstraints := fmd.meshConstraints.map fun con =>
                { con with
                  needs_validate := true,
                  use_kinematic_deactivation := true } } },
         fmd.meshConstraints.map fun con =>
           FilterEvent.removeConstraint con.physics_constraint) := by
  rw [hKD] at hcond
  cases hO : obOther.rigidbody_object.use_kinematic_deactivation with
  | false =>
    cases hU : fmd.use_constraints with
    | false => simp [filterActivateSide, hKD, hfr, hO, hU]
    | true =>
      rw [hO, hU] at hcond
      simp at hcond
  | true => simp [filterActivateSide, hKD, hfr, hO]

/-- C5 (amended): when the filter accepts a pair whose first participant is a
shard `mi1`, the owner has kinematic-deactivation enabled, a fracture
modifier is present, and either both owners flag kinematic-deactivation or
the modifier has constraints disabled, then the callback (a) flips the
kinematic flag to dynamic — setting kinematic-rebuild and needs-validate —
on the participating shard itself when it is kinematic, (b) leaves every
other (sibling) shard of that owner unchanged, and (c) flags every
constraint of that owner needs-validate and kinematic-deactivation and
removes its engine constraint from the world. -/
theorem C5_kinematic_activation (w : FilterWorldF) (mi1 : MeshIslandF)
    (island2 : Option MeshIslandF) (blenderOb1 blenderOb2 : ObjectF)
    (fmd : FractureModifierF)
    (hv : filterValidOb w (some mi1) island2 blenderOb1 blenderOb2 = true)
    (hKD : (filterResolveOb w (some mi1) blenderOb1).rigidbody_object.use_kinematic_deactivation
      = true)
    (hfr : (filterResolveOb w (some mi1) blenderOb1).fracture = some fmd)
    (hcond : (((filterResolveOb w (some mi1) blenderOb1).rigidbody_object.use_kinematic_deactivation
        && (filterResolveOb w island2 blenderOb2).rigidbody_object.use_kinematic_deactivation)
      || !fmd.use_constraints) = true) :
    ∃ fmd2,
      (filterCallback (some w) (some mi1) island2 blenderOb1 blenderOb2).ob1.fracture
        = some fmd2
      ∧ (∀ con ∈ fmd2.meshConstraints,
          con.needs_validate = true ∧ con.use_kinematic_deactivation = true)
      ∧ (∀ con ∈ fmd.meshConstraints,
          FilterEvent.removeConstraint con.physics_constraint
            ∈ (filterCallback (some w) (some mi1) island2 blenderOb1 blenderOb2).events)
      ∧ (∀ mi ∈ fmd.meshIslands, mi.miId = mi1.miId → mi.rigidbody.kinematic = true →
          ({ mi with rigidbody := { mi.rigidbody with
              kinematic := false, kinematic_rebuild := true,
              needs_validate := true } }) ∈ fmd2.meshIslands)
      ∧ (∀ mi ∈ fmd.meshIslands, mi.miId ≠ mi1.miId → mi ∈ fmd2.meshIslands) := by
  have hside := filterActivateSide_enabled mi1.miId
    (filterResolveOb w (some mi1) blenderOb1)
    (filterResolveOb w island2 blenderOb2) fmd hKD hfr hcond
  simp only [filterCallback, hv, if_true, Option.map_some, Option.map]
  rw [hside]
  refine ⟨_, rfl, ?_, ?_, ?_, ?_⟩
  · intro con hcon
    rcases List.mem_map.mp hcon with ⟨c, _, rfl⟩
    exact ⟨rfl, rfl⟩
  · intro con hcon
    exact List.mem_append_left _ (List.mem_map.mpr ⟨con, hcon, rfl⟩)
  · intro mi hmi hid hkin
    refine List.mem_map.mpr ⟨mi, hmi, ?_⟩
    simp [hkin, hid]
  · intro mi hmi hid
    refine List.mem_map.mpr ⟨mi, hmi, ?_⟩
    have hne : ¬ (mi1.miId = mi.miId) := fun h => hid h.symm
    simp [hne]

/-- A concrete example scene for the kinematic-activation claims: object
`exOb1` owns a fracture modifier with two kinematic shards (ids 0 and 1) and
one constraint with a live engine handle; `exOb2` is a plain kinematic body.
Shard 0 of `exOb1` collides with shard `exMi2` of `exOb2`. -/
def exShardA : MeshIslandF := ⟨0, 0, ⟨1, true, false, false, true⟩⟩

/-- Sibling shard (id 1) of the same fractured owner. -/
def exShardB : MeshIslandF := ⟨1, 1, ⟨1, true, false, false, true⟩⟩

/-- The fractured owner's modifier data, with constraints disabled. -/
def exFmd : FractureModifierF := ⟨[exShardA, exShardB], [⟨some 7, false, false⟩], false⟩

/-- The fractured owner: kinematic-deactivation enabled. -/
def exOb1 : ObjectF := ⟨⟨1, false, false, false, true⟩, some exFmd⟩

/-- The other (plain, kinematic) owner. -/
def exOb2 : ObjectF := ⟨⟨1, true, false, false, false⟩, none⟩

/-- The world for the example scene: index maps resolving linear indices
0 and 1 to `exOb1` and linear index 2 to `exOb2`. -/
def exW : FilterWorldF := ⟨[exOb1, exOb2], [0, 0, 1]⟩

/-- The colliding shard of `exOb2`. -/
def exMi2 : MeshIslandF := ⟨5, 2, ⟨1, true, false, false, false⟩⟩

/-- C5 counterexample to the claim as stated: in the example scene, shard 0
of the fractured owner collides while its sibling shard 1 is also kinematic.
After the callback only the participating shard 0 has been flipped to
dynamic — the sibling shard 1 is still kinematic — even though all of the
owner's constraints were flagged. -/
theorem C5_counterexample :
    ((filterCallback (some exW) (some exShardA) (some exMi2)
      objectFDefault objectFDefault).ob1.fracture.map fun f =>
        f.meshIslands.map fun mi => mi.rigidbody.kinematic) = some [false, true] := by
  decide

/-- Witness for C5 at the concrete example scene. -/
theorem C5_kinematic_activation_witness :
    ∃ fmd2,
      (filterCallback (some exW) (some exShardA) (some exMi2)
        objectFDefault objectFDefault).ob1.fracture = some fmd2
      ∧ (∀ con ∈ fmd2.meshConstraints,
          con.needs_validate = true ∧ con.use_kinematic_deactivation = true)
      ∧ (∀ con ∈ exFmd.meshConstraints,
          FilterEvent.removeConstraint con.physics_constraint
            ∈ (filterCallback (some exW) (some exShardA) (some exMi2)
                objectFDefault objectFDefault).events)
      ∧ (∀ mi ∈ exFmd.meshIslands, mi.miId = exShardA.miId → mi.rigidbody.kinematic = true →
          ({ mi with rigidbody := { mi.rigidbody with
              kinematic := false, kinematic_rebuild := true,
              needs_validate := true } }) ∈ fmd2.meshIslands)
      ∧ (∀ mi ∈ exFmd.meshIslands, mi.miId ≠ exShardA.miId → mi ∈ fmd2.meshIslands) :=
  C5_kinematic_activation exW exShardA (some exMi2) objectFDefault objectFDefault exFmd
    (by decide) (by decide) (by decide) (by decide)

/-! ## Body synchronizer (`rigidbody_validate_sim_object`,
`BKE_rigidbody_validate_sim_shard`) -/

/-- Engine calls issued while validating a body.  `validateShape` marks the
call into the shape-validation subroutine (modelled separately in the shape
builder section); `configureBody` summarises the `RB_body_set_*`
configuration sequence (friction, restitution, damping, sleep thresholds,
activation, factors, mass, kinematic state), which only pushes settings into
the freshly created engine body. -/
inductive BodyEvent where
  | validateShape
  | removeBody
  | deleteBody
  | newBody
  | configureBody
  | addBody
deriving Repr, DecidableEq

/-- The fields of a `RigidBodyOb` that decide the control flow of the body
validation functions: the two engine handles and the `RBO_FLAG_KINEMATIC_REBUILD`
and `RBO_FLAG_NEEDS_VALIDATE` flag bits. -/
structure RBOBody where
  physics_shape : Option Nat
  physics_object : Option Nat
  kinematic_rebuild : Bool
  needs_validate : Bool
deriving Repr, DecidableEq

/-- A `MeshIsland` as seen by `BKE_rigidbody_validate_sim_shard`. -/
structure MeshIslandB where
  rigidbody : Option RBOBody
  start_frame : Int
  frame_count : Int
deriving Repr, DecidableEq

/-- `rigidbody_validate_sim_object` (rigidbody.c:1183-1239).  `worldPresent`
models `rbw && rbw->physics_world`. -/
def rigidbody_validate_sim_object (worldPresent : Bool) (rbo : Option RBOBody)
    (rebuild : Bool) : Option RBOBody × List BodyEvent :=
  match rbo with
  | none => (none, [])
  | some rbo =>
    let evShape := if rbo.physics_shape = none ∨ rebuild then [BodyEvent.validateShape] else []
    let evRemove := if rbo.physics_object.isSome ∧ rebuild = false
      then [BodyEvent.removeBody] else []
    if rbo.physics_object = none ∨ rebuild then
      let evDelete := if rbo.physics_object.isSome then [BodyEvent.deleteBody] else []
      let rbo2 := { rbo with physics_object := some 0 }
      let evAdd := if worldPresent then [BodyEvent.addBody] else []
      (some rbo2,
       evShape ++ evRemove ++ evDelete ++ [BodyEvent.newBody, BodyEvent.configureBody] ++ evAdd)
    else
      let evAdd := if worldPresent then [BodyEvent.addBody] else []
      (some rbo, evShape ++ evRemove ++ evAdd)

/-- `BKE_rigidbody_validate_sim_shard` (rigidbody.c:1101-1166).  `worldPresent`
models `rbw && rbw->physics_world`; `startframe` is `rbw->pointcache->startframe`. -/
def BKE_rigidbody_validate_sim_shard (worldPresent : Bool) (startframe : Int)
    (mi : Option MeshIslandB) (rebuild : Bool) : Option MeshIslandB × List BodyEvent :=
  match mi with
  | none => (none, [])
  | some mi =>
    match mi.rigidbody with
    | none => (some mi, [])
    | some rbo =>
      let mi1 := { mi with start_frame := startframe, frame_count := 0 }
      let evShape := if rbo.physics_shape = none ∨ rebuild then [BodyEvent.validateShape] else []
      let evRemove := if rbo.physics_object.isSome ∧ (rebuild = false ∨ rbo.kinematic_rebuild)
        then [BodyEvent.removeBody] else []
      let step2 :=
        if rbo.physics_object = none ∨ rebuild then
          let evDelete := if rbo.physics_object.isSome then [BodyEvent.deleteBody] else []
          ({ rbo with physics_object := some 0 },
           evDelete ++ [BodyEvent.newBody, BodyEvent.configureBody])
        else (rbo, [])
      let rbo2 := step2.1
      let evAdd := if worldPresent ∧ rbo2.physics_object.isSome
        then [BodyEvent.addBody] else []
      let rbo3 := { rbo2 with needs_validate := false, kinematic_rebuild := false }
      (some { mi1 with rigidbody := some rbo3 },
       evShape ++ evRemove ++ step2.2 ++ evAdd)

/-- C2 counterexample to the claim as stated: both validate functions with a
live engine body, `rebuild = true` and the kinematic-rebuild flag clear.
The body is deleted and recreated, but no `RB_dworld_remove_body` call
happens before (or at all), contradicting the claimed removal-on-rebuild. -/
theorem C2_counterexample :
    (BodyEvent.deleteBody
        ∈ (rigidbody_validate_sim_object true (some ⟨some 1, some 2, false, false⟩) true).2
      ∧ BodyEvent.removeBody
        ∉ (rigidbody_validate_sim_object true (some ⟨some 1, some 2, false, false⟩) true).2)
    ∧ (BodyEvent.deleteBody
        ∈ (BKE_rigidbody_validate_sim_shard true 1 (some ⟨some ⟨some 1, some 2, false, false⟩, 0, 0⟩) true).2
      ∧ BodyEvent.removeBody
        ∉ (BKE_rigidbody_validate_sim_shard true 1 (some ⟨some ⟨some 1, some 2, false, false⟩, 0, 0⟩) true).2) := by
  decide

/-- C2 (amended): a live body is removed from the engine world exactly when
rebuild is NOT requested (object-level), respectively when rebuild is not
requested or the kinematic-rebuild flag is set (shard-level); deletion and
recreation of the handle happen exactly when rebuild is requested or no
live handle exists; and whenever a removal and a deletion both occur in one
call, the removal precedes the deletion. -/
theorem C2_remove_from_world_condition (wp : Bool) (sf : Int) (mi : MeshIslandB)
    (rbo : RBOBody) (rebuild : Bool) :
    (BodyEvent.removeBody ∈ (rigidbody_validate_sim_object wp (some rbo) rebuild).2
      ↔ rbo.physics_object.isSome ∧ rebuild = false)
    ∧ (BodyEvent.deleteBody ∈ (rigidbody_validate_sim_object wp (some rbo) rebuild).2
      ↔ rbo.physics_object.isSome ∧ (rbo.physics_object = none ∨ rebuild = true))
    ∧ (BodyEvent.removeBody
        ∈ (BKE_rigidbody_validate_sim_shard wp sf (some { mi with rigidbody := some rbo }) rebuild).2
      ↔ rbo.physics_object.isSome ∧ (rebuild = false ∨ rbo.kinematic_rebuild = true))
    ∧ (BodyEvent.deleteBody
        ∈ (BKE_rigidbody_validate_sim_shard wp sf (some { mi with rigidbody := some rbo }) rebuild).2
      ↔ rbo.physics_object.isSome ∧ rebuild = true)
    ∧ (BodyEvent.removeBody
        ∈ (BKE_rigidbody_validate_sim_shard wp sf (some { mi with rigidbody := some rbo }) rebuild).2
      → BodyEvent.deleteBody
        ∈ (BKE_rigidbody_validate_sim_shard wp sf (some { mi with rigidbody := some rbo }) rebuild).2
      → (BKE_rigidbody_validate_sim_shard wp sf (some { mi with rigidbody := some rbo }) rebuild).2.indexOf
          BodyEvent.removeBody
        < (BKE_rigidbody_validate_sim_shard wp sf (some { mi with rigidbody := some rbo }) rebuild).2.indexOf
          BodyEvent.deleteBody) := by
  cases hpo : rbo.physics_object <;> cases rebuild <;> cases hkr : rbo.kinematic_rebuild <;>
    cases hps : rbo.physics_shape <;> cases wp <;>
      simp [rigidbody_validate_sim_object, BKE_rigidbody_validate_sim_shard,
        hpo, hkr, hps, List.indexOf, List.findIdx, List.findIdx.go] <;> decide

/-- Witness for C2 at a concrete input: shard-level, live body, rebuild with
the kinematic-rebuild flag set — the removal happens and precedes deletion. -/
theorem C2_remove_from_world_condition_witness :
    BodyEvent.removeBody
      ∈ (BKE_rigidbody_validate_sim_shard true 1 (some { rigidbody := some ⟨some 1, some 2, true, false⟩, start_frame := 0, frame_count := 0 }) true).2
    ∧ (BKE_rigidbody_validate_sim_shard true 1 (some { rigidbody := some ⟨some 1, some 2, true, false⟩, start_frame := 0, frame_count := 0 }) true).2.indexOf
        BodyEvent.removeBody
      < (BKE_rigidbody_validate_sim_shard true 1 (some { rigidbody := some ⟨some 1, some 2, true, false⟩, start_frame := 0, frame_count := 0 }) true).2.indexOf
        BodyEvent.deleteBody := by
  have h := C2_remove_from_world_condition true 1
    { rigidbody := some ⟨some 1, some 2, true, false⟩, start_frame := 0, frame_count := 0 }
    ⟨some 1, some 2, true, false⟩ true
  exact ⟨(h.2.2.1).mpr (by decide), h.2.2.2.2 ((h.2.2.1).mpr (by decide)) ((h.2.2.2.1).mpr (by decide))⟩

/-! ## Constraint synchronizer (`rigidbody_validate_sim_constraint`,
`BKE_rigidbody_validate_sim_shard_constraint`) -/

/-- Engine calls issued while validating a constraint.  `newConstraint`
stands for the typed `RB_constraint_new_*` construction of the `switch`
(rigidbody.c:1291-1391 resp. 1478-1578) together with its per-type limit,
spring and motor parameter calls; `configureConstraint` summarises the
shared enabled/breaking-threshold/solver-iterations calls that follow. -/
inductive ConEvent where
  | removeConstraint
  | deleteConstraint
  | newConstraint
  | configureConstraint
  | addConstraint
deriving Repr, DecidableEq

/-- A rigid-body settings block holding the engine body handle of one
constraint endpoint. -/
structure RBOHandle where
  physics_object : Option Nat
deriving Repr, DecidableEq

/-- An endpoint `Object` of an object-level constraint: nullable
`rigidbody_object` settings. -/
structure ConObjectEnd where
  rigidbody_object : Option RBOHandle
deriving Repr, DecidableEq

/-- `RigidBodyCon` as seen by `rigidbody_validate_sim_constraint`:
two nullable endpoint objects and the engine constraint handle. -/
structure RigidBodyConM where
  ob1 : Option ConObjectEnd
  ob2 : Option ConObjectEnd
  physics_constraint : Option Nat
deriving Repr, DecidableEq

/-- The `ELEM(NULL, rbc->ob1, rbc->ob1->rigidbody_object, rbc->ob2,
rbc->ob2->rigidbody_object)` test (rigidbody.c:1266), with C short-circuit
evaluation. -/
def rbcEndpointMissing (rbc : RigidBodyConM) : Bool :=
  match rbc.ob1, rbc.ob2 with
  | some o1, some o2 => o1.rigidbody_object.isNone || o2.rigidbody_object.isNone
  | _, _ => true

/-- `rigidbody_validate_sim_constraint` (rigidbody.c:1248-1413).
`worldPresent` models `rbw && rbw->physics_world`. -/
def rigidbody_validate_sim_constraint (worldPresent : Bool)
    (rbc : Option RigidBodyConM) (rebuild : Bool) :
    Option RigidBodyConM × List ConEvent :=
  match rbc with
  | none => (none, [])
  | some rbc =>
    if rbcEndpointMissing rbc then
      if rbc.physics_constraint.isSome then
        (some { rbc with physics_constraint := none },
         [ConEvent.removeConstraint, ConEvent.deleteConstraint])
      else (some rbc, [])
    else
      let rb1 := (rbc.ob1.bind fun o => o.rigidbody_object).bind fun r => r.physics_object
      let rb2 := (rbc.ob2.bind fun o => o.rigidbody_object).bind fun r => r.physics_object
      let evRemove := if rbc.physics_constraint.isSome ∧ rebuild = false
        then [ConEvent.removeConstraint] else []
      if rbc.physics_constraint = none ∨ rebuild then
        let evDelete := if rbc.physics_constraint.isSome then [ConEvent.deleteConstraint] else []
        if rb1.isSome ∧ rb2.isSome then
          let rbc2 := { rbc with physics_constraint := some 0 }
          let evAdd := if worldPresent then [ConEvent.addConstraint] else []
          (some rbc2,
           evRemove ++ evDelete
             ++ [ConEvent.newConstraint, ConEvent.configureConstraint] ++ evAdd)
        else
          (some { rbc with physics_constraint := none }, evRemove ++ evDelete)
      else
        let evAdd := if worldPresent then [ConEvent.addConstraint] else []
        (some rbc, evRemove ++ evAdd)

/-- A `MeshIsland` endpoint of a shard-level constraint: nullable rigid-body
settings. -/
structure ConShardEnd where
  rigidbody : Option RBOHandle
deriving Repr, DecidableEq

/-- `RigidBodyShardCon` as seen by
`BKE_rigidbody_validate_sim_shard_constraint`: two nullable endpoint
islands, the engine handle, and the `RBC_FLAG_USE_KINEMATIC_DEACTIVATION`
flag bit. -/
structure ShardConM where
  mi1 : Option ConShardEnd
  mi2 : Option ConShardEnd
  physics_constraint : Option Nat
  use_kinematic_deactivation : Bool
deriving Repr, DecidableEq

/-- The `ELEM(NULL, rbc->mi1, rbc->mi1->rigidbody, rbc->mi2,
rbc->mi2->rigidbody)` test (rigidbody.c:1437), with C short-circuit
evaluation. -/
def shardConEndpointMissing (rbc : ShardConM) : Bool :=
  match rbc.mi1, rbc.mi2 with
  | some m1, some m2 => m1.rigidbody.isNone || m2.rigidbody.isNone
  | _, _ => true

/-- `BKE_rigidbody_validate_sim_shard_constraint` (rigidbody.c:1418-1602).
`worldPresent` models `rbw && rbw->physics_world`. -/
def BKE_rigidbody_validate_sim_shard_constraint (worldPresent : Bool)
    (rbc : Option ShardConM) (rebuild : Bool) :
    Option ShardConM × List ConEvent :=
  match rbc with
  | none => (none, [])
  | some rbc =>
    if shardConEndpointMissing rbc then
      if rbc.physics_constraint.isSome then
        (some { rbc with physics_constraint := none },
         [ConEvent.removeConstraint, ConEvent.deleteConstraint])
      else (some rbc, [])
    else
      let rb1 := (rbc.mi1.bind fun m => m.rigidbody).bind fun r => r.physics_object
      let rb2 := (rbc.mi2.bind fun m => m.rigidbody).bind fun r => r.physics_object
      let evRemove := if rbc.physics_constraint.isSome ∧ rebuild = false
          ∧ rbc.use_kinematic_deactivation = false
        then [ConEvent.removeConstraint] else []
      if rbc.physics_constraint = none ∨ rebuild ∨ rbc.use_kinematic_deactivation then
        let evDelete := if rbc.physics_constraint.isSome then [ConEvent.deleteConstraint] else []
        if rb1.isSome ∧ rb2.isSome then
          let rbc2 := { rbc with
            physics_constraint := some 0,
            use_kinematic_deactivation := false }
          let evAdd := if worldPresent then [ConEvent.addConstraint] else []
          (some rbc2,
           evRemove ++ evDelete
             ++ [ConEvent.newConstraint, ConEvent.configureConstraint] ++ evAdd)
        else
          (some { rbc with physics_constraint := none }, evRemove ++ evDelete)
      else
        let evAdd := if worldPresent then [ConEvent.addConstraint] else []
        (some { rbc with use_kinematic_deactivation := false }, evRemove ++ evAdd)

/-- C3: in both constraint validators, a missing endpoint reference or
missing endpoint rigid-body settings tears down any existing engine
constraint — removing it from the world and deleting it, with the stored
handle nulled — and the call returns normally without constructing or
re-adding an engine constraint. -/
theorem C3_missing_endpoint_teardown (wp rebuild : Bool)
    (rbc : RigidBodyConM) (src : ShardConM)
    (h1 : rbcEndpointMissing rbc = true)
    (h2 : shardConEndpointMissing src = true) :
    ((rigidbody_validate_sim_constraint wp (some rbc) rebuild).1
        = some { rbc with physics_constraint := none }
      ∧ ((rigidbody_validate_sim_constraint wp (some rbc) rebuild).2
        = if rbc.physics_constraint.isSome
          then [ConEvent.removeConstraint, ConEvent.deleteConstraint] else [])
      ∧ ConEvent.newConstraint ∉ (rigidbody_validate_sim_constraint wp (some rbc) rebuild).2
      ∧ ConEvent.addConstraint ∉ (rigidbody_validate_sim_constraint wp (some rbc) rebuild).2)
    ∧ ((BKE_rigidbody_validate_sim_shard_constraint wp (some src) rebuild).1
        = some { src with physics_constraint := none }
      ∧ ((BKE_rigidbody_validate_sim_shard_constraint wp (some src) rebuild).2
        = if src.physics_constraint.isSome
          then [ConEvent.removeConstraint, ConEvent.deleteConstraint] else [])
      ∧ ConEvent.newConstraint ∉ (BKE_rigidbody_validate_sim_shard_constraint wp (some src) rebuild).2
      ∧ ConEvent.addConstraint ∉ (BKE_rigidbody_validate_sim_shard_constraint wp (some src) rebuild).2) := by
  obtain ⟨o1, o2, pc⟩ := rbc
  obtain ⟨m1, m2, spc, kd⟩ := src
  cases pc <;> cases spc <;>
    simp_all [rigidbody_validate_sim_constraint, BKE_rigidbody_validate_sim_shard_constraint]

/-- Witness for C3 at concrete inputs: an object-level constraint whose
second endpoint object is null, and a shard-level constraint whose first
island has null rigid-body settings, both with live engine handles. -/
theorem C3_missing_endpoint_teardown_witness :
    ((rigidbody_validate_sim_constraint true (some ⟨some ⟨some ⟨some 3⟩⟩, none, some 9⟩) false).1
        = some ⟨some ⟨some ⟨some 3⟩⟩, none, none⟩
      ∧ ((rigidbody_validate_sim_constraint true (some ⟨some ⟨some ⟨some 3⟩⟩, none, some 9⟩) false).2
        = if (some 9 : Option Nat).isSome
          then [ConEvent.removeConstraint, ConEvent.deleteConstraint] else [])
      ∧ ConEvent.newConstraint
        ∉ (rigidbody_validate_sim_constraint true (some ⟨some ⟨some ⟨some 3⟩⟩, none, some 9⟩) false).2
      ∧ ConEvent.addConstraint
        ∉ (rigidbody_validate_sim_constraint true (some ⟨some ⟨some ⟨some 3⟩⟩, none, some 9⟩) false).2)
    ∧ ((BKE_rigidbody_validate_sim_shard_constraint true (some ⟨some ⟨none⟩, some ⟨some ⟨some 4⟩⟩, some 8, false⟩) false).1
        = some ⟨some ⟨none⟩, some ⟨some ⟨some 4⟩⟩, none, false⟩
      ∧ ((BKE_rigidbody_validate_sim_shard_constraint true (some ⟨some ⟨none⟩, some ⟨some ⟨some 4⟩⟩, some 8, false⟩) false).2
        = if (some 8 : Option Nat).isSome
          then [ConEvent.removeConstraint, ConEvent.deleteConstraint] else [])
      ∧ ConEvent.newConstraint
        ∉ (BKE_rigidbody_validate_sim_shard_constraint true (some ⟨some ⟨none⟩, some ⟨some ⟨some 4⟩⟩, some 8, false⟩) false).2
      ∧ ConEvent.addConstraint
        ∉ (BKE_rigidbody_validate_sim_shard_constraint true (some ⟨some ⟨none⟩, some ⟨some ⟨some 4⟩⟩, some 8, false⟩) false).2) :=
  C3_missing_endpoint_teardown true false
    ⟨some ⟨some ⟨some 3⟩⟩, none, some 9⟩
    ⟨some ⟨none⟩, some ⟨some ⟨some 4⟩⟩, some 8, false⟩
    (by decide) (by decide)

/-! ## Shape builder (`rigidbody_validate_sim_shape`,
`BKE_rigidbody_validate_sim_shard_shape`) -/

/-- The shape kinds of `rbo->shape` (`RB_SHAPE_*`). -/
inductive ShapeKind where
  | box
  | sphere
  | capsule
  | cylinder
  | cone
  | convexh
  | trimesh
deriving Repr, DecidableEq

/-- The fields of a `RigidBodyOb` driving the shape validators: the
requested shape kind and the stored engine shape handle. -/
structure RBOShape where
  shape : ShapeKind
  physics_shape : Option Nat
deriving Repr, DecidableEq

/-- `rigidbody_validate_sim_shape` (rigidbody.c:884-982), parametrised by
`mk`, the construction of an engine shape of a given kind from the object's
geometry (the `RB_shape_new_*` / convex-hull / trimesh calls, returning NULL
on failure).  The C function recurses on failure; `fuel` bounds that
recursion, `none` meaning the bound was hit.  The result carries the updated
settings and the number of construction attempts.  On success the old handle
is deleted and the margin reapplied (engine-side, not tracked here). -/
def rigidbody_validate_sim_shape_fuel (mk : ShapeKind → Option Nat)
    (fuel : Nat) (rbo : RBOShape) (rebuild : Bool) : Option (RBOShape × Nat) :=
  match fuel with
  | 0 => none
  | fuel + 1 =>
    if rbo.physics_shape.isSome ∧ rebuild = false then some (rbo, 0)
    else
      match mk rbo.shape with
      | some s => some ({ rbo with physics_shape := some s }, 1)
      | none =>
        if rbo.physics_shape = none then
          match rigidbody_validate_sim_shape_fuel mk fuel
              { rbo with shape := ShapeKind.box } true with
          | some (r, n) => some (r, n + 1)
          | none => none
        else some (rbo, 1)

/-- `BKE_rigidbody_validate_sim_shard_shape` (rigidbody.c:989-1088): same
structure, but the failure branch always falls back to box, old shape or
not. -/
def BKE_rigidbody_validate_sim_shard_shape_fuel (mk : ShapeKind → Option Nat)
    (fuel : Nat) (rbo : RBOShape) (rebuild : Bool) : Option (RBOShape × Nat) :=
  match fuel with
  | 0 => none
  | fuel + 1 =>
    if rbo.physics_shape.isSome ∧ rebuild = false then some (rbo, 0)
    else
      match mk rbo.shape with
      | some s => some ({ rbo with physics_shape := some s }, 1)
      | none =>
        match BKE_rigidbody_validate_sim_shard_shape_fuel mk fuel
            { rbo with shape := ShapeKind.box } true with
        | some (r, n) => some (r, n + 1)
        | none => none

/-- A shape construction in which only box succeeds (e.g. a convex hull over
degenerate geometry for a non-mesh object). -/
def mkBoxOnly : ShapeKind → Option Nat :=
  fun k => if k = ShapeKind.box then some 0 else none

/-- C8 counterexample to the claim as stated: object-level shape validation
with a live old shape handle and a failing convex-hull construction keeps
the old shape and the old shape kind — the kind is not forced to box and no
retry happens (a single construction attempt). -/
theorem C8_counterexample :
    rigidbody_validate_sim_shape_fuel mkBoxOnly 2 ⟨ShapeKind.convexh, some 5⟩ true
      = some (⟨ShapeKind.convexh, some 5⟩, 1)
    ∧ ShapeKind.convexh ≠ ShapeKind.box := by decide

/-- C8 (amended): provided box construction succeeds (an engine guarantee),
both shape validators terminate within recursion depth two with at most two
construction attempts; on a construction failure the shard-level validator
always retries exactly once with the kind forced to box, while the
object-level validator does so only when no old shape handle exists — with
an old handle it keeps the old shape and kind without retrying. -/
theorem C8_shape_fallback_once (mk : ShapeKind → Option Nat)
    (hbox : ∃ s, mk ShapeKind.box = some s) (rbo : RBOShape) (rebuild : Bool) :
    (∃ r n, rigidbody_validate_sim_shape_fuel mk 2 rbo rebuild = some (r, n)
      ∧ n ≤ 2
      ∧ (mk rbo.shape = none → ¬(rbo.physics_shape.isSome ∧ rebuild = false) →
          rbo.physics_shape = none → r.shape = ShapeKind.box ∧ n = 2)
      ∧ (mk rbo.shape = none → ¬(rbo.physics_shape.isSome ∧ rebuild = false) →
          rbo.physics_shape.isSome → r = rbo ∧ n = 1))
    ∧ (∃ r n, BKE_rigidbody_validate_sim_shard_shape_fuel mk 2 rbo rebuild = some (r, n)
      ∧ n ≤ 2
      ∧ (mk rbo.shape = none → ¬(rbo.physics_shape.isSome ∧ rebuild = false) →
          r.shape = ShapeKind.box ∧ n = 2)) := by
  obtain ⟨s, hs⟩ := hbox
  by_cases hskip : rbo.physics_shape.isSome ∧ rebuild = false
  · refine ⟨⟨rbo, 0, ?_, by norm_num, ?_, ?_⟩, ⟨rbo, 0, ?_, by norm_num, ?_⟩⟩ <;>
      simp [rigidbody_validate_sim_shape_fuel,
        BKE_rigidbody_validate_sim_shard_shape_fuel, hskip]
  · cases hm : mk rbo.shape with
    | some t =>
      refine ⟨⟨{ rbo with physics_shape := some t }, 1, ?_, by norm_num, ?_, ?_⟩,
              ⟨{ rbo with physics_shape := some t }, 1, ?_, by norm_num, ?_⟩⟩ <;>
        simp [rigidbody_validate_sim_shape_fuel,
          BKE_rigidbody_validate_sim_shard_shape_fuel, hskip, hm]
    | none =>
      cases hps : rbo.physics_shape with
      | some u =>
        have hreb : rebuild = true := by
          cases rebuild
          · exact absurd ⟨by simp [hps], rfl⟩ hskip
          · rfl
        refine ⟨⟨rbo, 1, ?_, by norm_num, ?_, ?_⟩,
                ⟨{ rbo with shape := ShapeKind.box, physics_shape := some s }, 2,
                  ?_, by norm_num, ?_⟩⟩ <;>
          simp [rigidbody_validate_sim_shape_fuel,
            BKE_rigidbody_validate_sim_shard_shape_fuel, hskip, hm, hps, hs, hreb]
      | none =>
        refine ⟨⟨{ rbo with shape := ShapeKind.box, physics_shape := some s }, 2,
                  ?_, by norm_num, ?_, ?_⟩,
                ⟨{ rbo with shape := ShapeKind.box, physics_shape := some s }, 2,
                  ?_, by norm_num, ?_⟩⟩ <;>
          simp [rigidbody_validate_sim_shape_fuel,
            BKE_rigidbody_validate_sim_shard_shape_fuel, hskip, hm, hps, hs]

/-- Witness for C8 at a concrete input: a trimesh shard shape whose
construction fails over `mkBoxOnly`, with no old handle; both validators
retry once as box. -/
theorem C8_shape_fallback_once_witness :
    (∃ r n, rigidbody_validate_sim_shape_fuel mkBoxOnly 2 ⟨ShapeKind.trimesh, none⟩ false = some (r, n)
      ∧ n ≤ 2
      ∧ (mkBoxOnly ShapeKind.trimesh = none →
          ¬((none : Option Nat).isSome ∧ false = false) →
          (none : Option Nat) = none → r.shape = ShapeKind.box ∧ n = 2)
      ∧ (mkBoxOnly ShapeKind.trimesh = none →
          ¬((none : Option Nat).isSome ∧ false = false) →
          (none : Option Nat).isSome → r = ⟨ShapeKind.trimesh, none⟩ ∧ n = 1))
    ∧ (∃ r n, BKE_rigidbody_validate_sim_shard_shape_fuel mkBoxOnly 2 ⟨ShapeKind.trimesh, none⟩ false = some (r, n)
      ∧ n ≤ 2
      ∧ (mkBoxOnly ShapeKind.trimesh = none →
          ¬((none : Option Nat).isSome ∧ false = false) →
          r.shape = ShapeKind.box ∧ n = 2)) :=
  C8_shape_fallback_once mkBoxOnly ⟨0, rfl⟩ ⟨ShapeKind.trimesh, none⟩ false

/-! ## Breaking-percentage rule (`rigidbody_update_simulation`,
rigidbody.c:2663-2698) -/

/-- Engine-side state of a live shard-constraint handle: whether the
constraint is currently enabled in the solver
(`RB_constraint_is_enabled` / `RB_constraint_set_enabled`). -/
structure EngineCon where
  con_enabled : Bool
deriving Repr, DecidableEq

/-- An entry of `mi->participating_constraints` as used by the
breaking-percentage pass: the `RBC_FLAG_ENABLED` and
`RBC_FLAG_NEEDS_VALIDATE` flag bits and the nullable engine handle. -/
structure ShardConP where
  enabled : Bool
  needs_validate : Bool
  physics_constraint : Option EngineCon
deriving Repr, DecidableEq

/-- The fields of `FractureModifierData` read by the breaking-percentage
pass. -/
structure FractureBreakCfg where
  breaking_percentage : Int
  breaking_percentage_weighted : Bool
deriving Repr, DecidableEq

/-- `int breaking_percentage = rmd->breaking_percentage_weighted ?
(rmd->breaking_percentage * weight) : rmd->breaking_percentage;`
(rigidbody.c:2665) — the float product is truncated by the C int cast. -/
def effectiveBreakingPercentage (rmd : FractureBreakCfg) (weight : ℚ) : Int :=
  if rmd.breaking_percentage_weighted
  then cTruncInt ((rmd.breaking_percentage : ℚ) * weight)
  else rmd.breaking_percentage

/-- `broken_cons`: the count of participating constraints that are non-null,
hold a live engine constraint, and are disabled engine-side
(rigidbody.c:2673-2680). -/
def brokenConsCount (cons : List (Option ShardConP)) : Nat :=
  (cons.filter fun c =>
    match c with
    | some con =>
      match con.physics_constraint with
      | some pc => !pc.con_enabled
      | none => false
    | none => false).length

/-- The breaking-percentage block of `rigidbody_update_simulation`
(rigidbody.c:2663-2698) for one mesh island: `weight` is
`mi->thresh_weight`; `cons` is the island's `participating_constraints`
array (entries may be NULL); returns the updated array. -/
def rigidbody_breaking_percentage_pass (rmd : FractureBreakCfg) (weight : ℚ)
    (cons : List (Option ShardConP)) : List (Option ShardConP) :=
  if rmd.breaking_percentage > 0 ∨ (rmd.breaking_percentage_weighted = true ∧ weight > 0) then
    let broken_cons := brokenConsCount cons
    if cons.length > 0 then
      if ((broken_cons : ℚ) / (cons.length : ℚ)) * 100
          ≥ (effectiveBreakingPercentage rmd weight : ℚ) then
        cons.map fun c =>
          match c with
          | some con =>
            some { con with
              enabled := false,
              needs_validate := true,
              physics_constraint := con.physics_constraint.map fun pc =>
                { pc with con_enabled := false } }
          | none => none
      else cons
    else cons
  else cons

/-- C6: when the breaking percentage is configured (flat positive, or
weighted with positive weight), the island has `N > 0` participating
constraints of which `B` have a disabled live engine constraint, and
`B/N*100` meets or exceeds the (optionally weight-scaled) configured
percentage, the pass disables every participating constraint of the island:
the enabled flag is cleared, needs-validate is set, and any live engine
constraint is disabled. -/
theorem C6_breaking_percentage_cascade (rmd : FractureBreakCfg) (weight : ℚ)
    (cons : List (Option ShardConP))
    (hcfg : rmd.breaking_percentage > 0
      ∨ (rmd.breaking_percentage_weighted = true ∧ weight > 0))
    (hn : 0 < cons.length)
    (hpct : ((brokenConsCount cons : ℚ) / (cons.length : ℚ)) * 100
      ≥ (effectiveBreakingPercentage rmd weight : ℚ)) :
    (rigidbody_breaking_percentage_pass rmd weight cons).length = cons.length
    ∧ ∀ c ∈ rigidbody_breaking_percentage_pass rmd weight cons,
        ∀ con, c = some con →
          con.enabled = false ∧ con.needs_validate = true
          ∧ ∀ pc, con.physics_constraint = some pc → pc.con_enabled = false := by
  have hunfold : rigidbody_breaking_percentage_pass rmd weight cons
      = cons.map fun c =>
          match c with
          | some con =>
            some { con with
              enabled := false,
              needs_validate := true,
              physics_constraint := con.physics_constraint.map fun pc =>
                { pc with con_enabled := false } }
          | none => none := by
    rw [rigidbody_breaking_percentage_pass, if_pos hcfg]
    simp only [if_pos hn, if_pos hpct]
  rw [hunfold]
  refine ⟨List.length_map _ _, ?_⟩
  intro c hc con hcon
  rcases List.mem_map.mp hc with ⟨a, _, rfl⟩
  cases a with
  | none => exact absurd hcon (by simp)
  | some b =>
    have : con = { b with
        enabled := false,
        needs_validate := true,
        physics_constraint := b.physics_constraint.map fun pc =>
          { pc with con_enabled := false } } := by
      exact Option.some_injective _ hcon.symm
    subst this
    refine ⟨rfl, rfl, ?_⟩
    intro pc hpc
    cases hb : b.physics_constraint with
    | none => simp [hb] at hpc
    | some q =>
      simp only [hb, Option.map_some] at hpc
      cases Option.some_injective _ hpc.symm
      rfl

/-- Witness for C6 at a concrete input: two participating constraints, one
already disabled engine-side (`B/N*100 = 50 ≥ 50`); both end up fully
disabled. -/
theorem C6_breaking_percentage_cascade_witness :
    (rigidbody_breaking_percentage_pass ⟨50, false⟩ 1
      [some ⟨true, false, some ⟨false⟩⟩, some ⟨true, false, some ⟨true⟩⟩]).length
      = ([some ⟨true, false, some ⟨false⟩⟩, some ⟨true, false, some ⟨true⟩⟩]
          : List (Option ShardConP)).length
    ∧ ∀ c ∈ rigidbody_breaking_percentage_pass ⟨50, false⟩ 1
        [some ⟨true, false, some ⟨false⟩⟩, some ⟨true, false, some ⟨true⟩⟩],
        ∀ con, c = some con →
          con.enabled = false ∧ con.needs_validate = true
          ∧ ∀ pc, con.physics_constraint = some pc → pc.con_enabled = false :=
  C6_breaking_percentage_cascade ⟨50, false⟩ 1
    [some ⟨true, false, some ⟨false⟩⟩, some ⟨true, false, some ⟨true⟩⟩]
    (by norm_num) (by norm_num) (by norm_num [brokenConsCount, effectiveBreakingPercentage])

/-! ## Null guards at entry points (`restoreKinematic`,
`BKE_rigidbody_cache_reset`, `BKE_rigidbody_remove_constraint`)

These functions are modelled in an abstract C machine where following a NULL
pointer yields `Except.error ()` (a crash / undefined behaviour), so that
the presence or absence of a null guard is observable. -/

/-- Kinematic-restoration view of a `RigidBodyOb`: the two flag bits
`restoreKinematic` sets. -/
structure RBOKin where
  kinematic : Bool
  needs_validate : Bool
deriving Repr, DecidableEq

/-- Fracture-modifier view for `restoreKinematic`: per island the nullable
`mi->rigidbody`. -/
structure FractureKin where
  meshIslands : List (Option RBOKin)
deriving Repr, DecidableEq

/-- An object of the world group: nullable rigid-body settings and the
result of `modifiers_findByType(.., eModifierType_Fracture)`. -/
structure ObjectK where
  rigidbody_object : Option RBOKin
  fracture : Option FractureKin
deriving Repr, DecidableEq

/-- `RigidBodyWorld` as seen by these entry points: the engine world handle,
the nullable `group` with its object list (entries `go->ob` nullable), and
the point cache's `PTCACHE_OUTDATED` bit. -/
structure RBWorldK where
  physics_world : Option Nat
  group : Option (List (Option ObjectK))
  pointcache_outdated : Bool
deriving Repr, DecidableEq

/-- `restoreKinematic` (rigidbody.c:3111-3134).  The function immediately
evaluates `rbw->group->gobject`, so a NULL `rbw` (or NULL `rbw->group`) is a
crash, modelled as `Except.error ()`. -/
def restoreKinematic (rbw : Option RBWorldK) : Except Unit RBWorldK :=
  match rbw with
  | none => Except.error ()
  | some rbw =>
    match rbw.group with
    | none => Except.error ()
    | some gobject =>
      let gobject2 := gobject.map fun ob =>
        match ob with
        | some ob =>
          match ob.rigidbody_object with
          | some rbo =>
            if rbo.kinematic then
              match ob.fracture with
              | some fmd =>
                let fmd2 : FractureKin := ⟨fmd.meshIslands.map fun mi =>
                  match mi with
                  | some miRbo => some { miRbo with kinematic := true, needs_validate := true }
                  | none => none⟩
                some { ob with fracture := some fmd2 }
              | none => some ob
            else some ob
          | none => some ob
        | none => none
      Except.ok { rbw with group := some gobject2 }

/-- `BKE_rigidbody_cache_reset` (rigidbody.c:3136-3142): the outdated bit is
set under an `if (rbw)` guard, but `restoreKinematic(rbw)` is then called
unconditionally. -/
def BKE_rigidbody_cache_reset (rbw : Option RBWorldK) : Except Unit (Option RBWorldK) :=
  let rbw2 := match rbw with
    | some w => some { w with pointcache_outdated := true }
    | none => none
  match restoreKinematic rbw2 with
  | Except.ok w => Except.ok (some w)
  | Except.error e => Except.error e

/-- `BKE_rigidbody_remove_constraint` (rigidbody.c:2365-2379).  `rbc` is
`ob->rigidbody_constraint` holding its `physics_constraint` handle; the
condition `rbw && rbw->physics_world && rbc->physics_constraint`
short-circuits, so `rbc` is dereferenced exactly when the first two hold.
`BKE_rigidbody_free_constraint` (rigidbody.c:570-587) guards a NULL `rbc`
itself and nulls the pointer.  Returns the updated world and
`ob->rigidbody_constraint`. -/
def BKE_rigidbody_remove_constraint (rbw : Option RBWorldK)
    (rbc : Option (Option Nat)) :
    Except Unit (Option RBWorldK × Option (Option Nat)) :=
  let step1 : Except Unit Unit :=
    match rbw with
    | some w =>
      match w.physics_world with
      | some _ =>
        match rbc with
        | none => Except.error ()
        | some _ => Except.ok ()
      | none => Except.ok ()
    | none => Except.ok ()
  match step1 with
  | Except.error e => Except.error e
  | Except.ok _ =>
    match BKE_rigidbody_cache_reset rbw with
    | Except.ok w2 => Except.ok (w2, none)
    | Except.error e => Except.error e

/-- C9: evaluation of the entry points at the claimed no-op inputs.  A NULL
world passed to `BKE_rigidbody_cache_reset` (and to `restoreKinematic`)
crashes instead of returning, as does `BKE_rigidbody_remove_constraint`
on an object whose `rigidbody_constraint` is NULL while a live world
exists, and on a NULL world (via the final `BKE_rigidbody_cache_reset`). -/
theorem C9_null_entry_crashes :
    restoreKinematic none = Except.error ()
    ∧ BKE_rigidbody_cache_reset none = Except.error ()
    ∧ BKE_rigidbody_remove_constraint (some ⟨some 1, some [], false⟩) none
      = Except.error ()
    ∧ BKE_rigidbody_remove_constraint none (some (some 2)) = Except.error () :=
  ⟨rfl, rfl, rfl, rfl⟩

/-! ## Shard mass (`BKE_rigidbody_calc_shard_mass`,
`BKE_rigidbody_calc_volume`, `DM_mesh_minmax`, `DM_mesh_boundbox`) -/

/-- A 3-vector of C floats. -/
structure V3 where
  x : ℚ
  y : ℚ
  z : ℚ
deriving Repr, DecidableEq

/-- A `DerivedMesh` as consumed here: its vertex coordinate array. -/
abbrev DMesh := List V3

/-- `DM_mesh_minmax` (rigidbody.c:188-198): fold `minmax_v3v3_v3` over the
vertices starting from the given accumulators; the returned flag is
`numVertData != 0`. -/
def DM_mesh_minmax (dm : DMesh) (rmin rmax : V3) : V3 × V3 × Bool :=
  let r := dm.foldl (fun (acc : V3 × V3) v =>
    (⟨min acc.1.x v.x, min acc.1.y v.y, min acc.1.z v.z⟩,
     ⟨max acc.2.x v.x, max acc.2.y v.y, max acc.2.z v.z⟩)) (rmin, rmax)
  (r.1, r.2, !dm.isEmpty)

/-- `DM_mesh_boundbox` (rigidbody.c:200-219): accumulators seeded by
`INIT_MINMAX` (±1.0e30); an empty mesh yields the unit bound [-1,1]^3.
Returns (loc, size) where size holds the half-extents. -/
def DM_mesh_boundbox (dm : DMesh) : V3 × V3 :=
  let mm := DM_mesh_minmax dm ⟨1e30, 1e30, 1e30⟩ ⟨-1e30, -1e30, -1e30⟩
  let mn := if mm.2.2 then mm.1 else ⟨-1, -1, -1⟩
  let mx := if mm.2.2 then mm.2.1 else ⟨1, 1, 1⟩
  (⟨(mn.x + mx.x) / 2, (mn.y + mx.y) / 2, (mn.z + mx.z) / 2⟩,
   ⟨(mx.x - mn.x) / 2, (mx.y - mn.y) / 2, (mx.z - mn.z) / 2⟩)

/-- The C double constant `M_PI` as an exact rational stand-in. -/
def ratPi : ℚ := 3.141592653589793

/-- `BKE_rigidbody_calc_volume` (rigidbody.c:222-294): volume from the
mesh bound and the rigid body's shape kind, with the degenerate-axis
fallbacks for the box-like shapes. -/
def BKE_rigidbody_calc_volume (dm : DMesh) (shape : ShapeKind) : ℚ :=
  let size := (DM_mesh_boundbox dm).2
  let radius : ℚ :=
    if shape = ShapeKind.capsule ∨ shape = ShapeKind.cylinder ∨ shape = ShapeKind.cone then
      max size.x size.y * (1 / 2)
    else if shape = ShapeKind.sphere then
      max (max size.x size.y) size.z * (1 / 2)
    else 1
  let height : ℚ :=
    if shape = ShapeKind.capsule ∨ shape = ShapeKind.cylinder ∨ shape = ShapeKind.cone then
      size.z
    else 1
  match shape with
  | ShapeKind.sphere => 4 / 3 * ratPi * radius * radius * radius
  | ShapeKind.capsule => ratPi * radius * radius * height
  | ShapeKind.cylinder => ratPi * radius * radius * height
  | ShapeKind.cone => ratPi / 3 * radius * radius * height
  | ShapeKind.box | ShapeKind.convexh | ShapeKind.trimesh =>
    if size.x = 0 then size.y * size.z
    else if size.y = 0 then size.x * size.z
    else if size.z = 0 then size.x * size.y
    else size.x * size.y * size.z

/-- `RBO_TYPE_ACTIVE` / `RBO_TYPE_PASSIVE`. -/
inductive RBOType where
  | active
  | passive
deriving Repr, DecidableEq

/-- The fields of a `RigidBodyOb` used by `BKE_rigidbody_calc_shard_mass`. -/
structure RBOMassState where
  shape : ShapeKind
  mass : ℚ
  rbtype : RBOType
  physics_object : Option Nat
deriving Repr, DecidableEq

/-- Engine call pushing a mass into a live body (`RB_body_set_mass`). -/
inductive MassEvent where
  | setMass : ℚ → MassEvent
deriving Repr, DecidableEq

/-- Modelled from the spec: the `RBO_GET_MASS` accessor lives in
`BKE_rigidbody.h`, which is not under `src/`; per the spec the engine mass
of an active shard is updated to the stored mass. -/
def RBO_GET_MASS (rbo : RBOMassState) : ℚ := rbo.mass

/-- The volume-proportional step of `BKE_rigidbody_calc_shard_mass`
(rigidbody.c:298-327): compute the owning object's volume (from the passed
`orig_dm`, else from the object's own mesh, else from its dimensions) and,
when it is positive, set the shard mass to
`(vol_mi / vol_ob) * mass_ob`. -/
def shardMassVolumeStep (obTypeMesh : Bool) (obDataVerts : DMesh) (obDims : V3)
    (obRbo : RBOMassState) (mi : RBOMassState) (miPhysicsMesh : DMesh)
    (origDm : Option DMesh) : RBOMassState :=
  let vol_ob :=
    match origDm with
    | none =>
      if obTypeMesh then BKE_rigidbody_calc_volume obDataVerts obRbo.shape
      else obDims.x * obDims.y * obDims.z
    | some dm => BKE_rigidbody_calc_volume dm obRbo.shape
  let mass_ob := obRbo.mass
  if vol_ob > 0 then
    let vol_mi := BKE_rigidbody_calc_volume miPhysicsMesh mi.shape
    { mi with mass := vol_mi / vol_ob * mass_ob }
  else mi

/-- `BKE_rigidbody_calc_shard_mass` (rigidbody.c:296-345): volume step, then
the 0.001 minimum for active shards with zero mass, then the engine mass
update for live bodies of active shards. -/
def BKE_rigidbody_calc_shard_mass (obTypeMesh : Bool) (obDataVerts : DMesh)
    (obDims : V3) (obRbo : RBOMassState) (mi : RBOMassState)
    (miPhysicsMesh : DMesh) (origDm : Option DMesh) :
    RBOMassState × List MassEvent :=
  let mi1 := shardMassVolumeStep obTypeMesh obDataVerts obDims obRbo mi miPhysicsMesh origDm
  let mi2 := if mi1.rbtype = RBOType.active ∧ mi1.mass = 0
    then { mi1 with mass := 1 / 1000 } else mi1
  let evs := if mi2.physics_object.isSome ∧ mi2.rbtype = RBOType.active
    then [MassEvent.setMass (RBO_GET_MASS mi2)] else []
  (mi2, evs)

/-- C10: after `BKE_rigidbody_calc_shard_mass` on an active shard, the
stored mass is nonzero; a zero outcome of the volume-proportional step is
replaced by the minimum 0.001; and a live engine body of an active shard
receives exactly one engine mass update carrying the stored mass. -/
theorem C10_shard_mass_nonzero (obTypeMesh : Bool) (obDataVerts : DMesh)
    (obDims : V3) (obRbo : RBOMassState) (mi : RBOMassState)
    (miPhysicsMesh : DMesh) (origDm : Option DMesh)
    (hact : mi.rbtype = RBOType.active) :
    (BKE_rigidbody_calc_shard_mass obTypeMesh obDataVerts obDims obRbo mi
        miPhysicsMesh origDm).1.mass ≠ 0
    ∧ ((shardMassVolumeStep obTypeMesh obDataVerts obDims obRbo mi
        miPhysicsMesh origDm).mass = 0 →
      (BKE_rigidbody_calc_shard_mass obTypeMesh obDataVerts obDims obRbo mi
        miPhysicsMesh origDm).1.mass = 1 / 1000)
    ∧ (mi.physics_object.isSome →
      (BKE_rigidbody_calc_shard_mass obTypeMesh obDataVerts obDims obRbo mi
          miPhysicsMesh origDm).2
        = [MassEvent.setMass
            (BKE_rigidbody_calc_shard_mass obTypeMesh obDataVerts obDims obRbo mi
              miPhysicsMesh origDm).1.mass]) := by
  have htype : (shardMassVolumeStep obTypeMesh obDataVerts obDims obRbo mi
      miPhysicsMesh origDm).rbtype = RBOType.active := by
    unfold shardMassVolumeStep
    repeat' split
    all_goals simp [hact, apply_ite RBOMassState.rbtype]
  have hpo : (shardMassVolumeStep obTypeMesh obDataVerts obDims obRbo mi
      miPhysicsMesh origDm).physics_object = mi.physics_object := by
    unfold shardMassVolumeStep
    repeat' split
    all_goals simp [apply_ite RBOMassState.physics_object]
  by_cases hz : (shardMassVolumeStep obTypeMesh obDataVerts obDims obRbo mi
      miPhysicsMesh origDm).mass = 0
  · refine ⟨?_, ?_, ?_⟩ <;>
      simp [BKE_rigidbody_calc_shard_mass, htype, hz, hpo, RBO_GET_MASS,
        Option.isSome_iff_ne_none]
  · refine ⟨?_, ?_, ?_⟩ <;>
      simp [BKE_rigidbody_calc_shard_mass, htype, hz, hpo, RBO_GET_MASS,
        Option.isSome_iff_ne_none]

/-- Witness for C10 at a concrete input: a degenerate shard mesh (all
vertices equal) inside a unit-volume owner, so the volume-proportional step
yields mass 0 and 0.001 is substituted and pushed to the live body. -/
theorem C10_shard_mass_nonzero_witness :
    (BKE_rigidbody_calc_shard_mass true [] ⟨1, 1, 1⟩
        ⟨ShapeKind.box, 1, RBOType.active, none⟩
        ⟨ShapeKind.box, 0, RBOType.active, some 4⟩
        [⟨0, 0, 0⟩, ⟨0, 0, 0⟩]
        (some [⟨0, 0, 0⟩, ⟨2, 2, 2⟩])).1.mass ≠ 0
    ∧ ((shardMassVolumeStep true [] ⟨1, 1, 1⟩
        ⟨ShapeKind.box, 1, RBOType.active, none⟩
        ⟨ShapeKind.box, 0, RBOType.active, some 4⟩
        [⟨0, 0, 0⟩, ⟨0, 0, 0⟩]
        (some [⟨0, 0, 0⟩, ⟨2, 2, 2⟩])).mass = 0 →
      (BKE_rigidbody_calc_shard_mass true [] ⟨1, 1, 1⟩
        ⟨ShapeKind.box, 1, RBOType.active, none⟩
        ⟨ShapeKind.box, 0, RBOType.active, some 4⟩
        [⟨0, 0, 0⟩, ⟨0, 0, 0⟩]
        (some [⟨0, 0, 0⟩, ⟨2, 2, 2⟩])).1.mass = 1 / 1000)
    ∧ ((some 4 : Option Nat).isSome →
      (BKE_rigidbody_calc_shard_mass true [] ⟨1, 1, 1⟩
          ⟨ShapeKind.box, 1, RBOType.active, none⟩
          ⟨ShapeKind.box, 0, RBOType.active, some 4⟩
          [⟨0, 0, 0⟩, ⟨0, 0, 0⟩]
          (some [⟨0, 0, 0⟩, ⟨2, 2, 2⟩])).2
        = [MassEvent.setMass
            (BKE_rigidbody_calc_shard_mass true [] ⟨1, 1, 1⟩
              ⟨ShapeKind.box, 1, RBOType.active, none⟩
              ⟨ShapeKind.box, 0, RBOType.active, some 4⟩
              [⟨0, 0, 0⟩, ⟨0, 0, 0⟩]
              (some [⟨0, 0, 0⟩, ⟨2, 2, 2⟩])).1.mass]) :=
  C10_shard_mass_nonzero true [] ⟨1, 1, 1⟩
    ⟨ShapeKind.box, 1, RBOType.active, none⟩
    ⟨ShapeKind.box, 0, RBOType.active, some 4⟩
    [⟨0, 0, 0⟩, ⟨0, 0, 0⟩]
    (some [⟨0, 0, 0⟩, ⟨2, 2, 2⟩]) rfl

/-! ## Cache/Timeline controller (`BKE_rigidbody_do_simulation`) -/

/-- The calls `BKE_rigidbody_do_simulation` makes, in order. -/
inductive SimEvent where
  | updateObArray
  | cacheValidate : Int → SimEvent
  | cacheWrite : Int → SimEvent
  | restoreKin
  | updateSim : Bool → SimEvent
  | stepSim
  | postStep
deriving Repr, DecidableEq

/-- The point cache as consumed by the controller: frame range, the
`PTCACHE_OUTDATED`/`PTCACHE_BAKED` bits, `last_exact`, and the external
point-cache collaborator's read outcome (`BKE_ptcache_read` succeeding at a
given time), modelled as an oracle. -/
structure PointCacheS where
  startframe : Int
  endframe : Int
  flag_outdated : Bool
  flag_baked : Bool
  last_exact : Int
  readOk : ℚ → Bool

/-- The fields of `RigidBodyWorld` read or written by
`BKE_rigidbody_do_simulation`.  `objects_present` / `cache_index_map_present`
model the NULL-ness of the two index-map arrays. -/
structure RBWorldS where
  ltime : ℚ
  physics_world : Option Nat
  objects_present : Bool
  cache_index_map_present : Bool
  object_changed : Bool
  refresh_modifiers : Bool
  rebuild_comp_con : Bool
  pointcache : PointCacheS

/-- `BKE_rigidbody_do_simulation` (rigidbody.c:3178-3255).  The subroutines
(`rigidbody_update_ob_array`, `rigidbody_update_simulation`,
`restoreKinematic`, `RB_dworld_step_simulation`, the cache calls) are
recorded as events; none of them modifies the controller fields tracked
here except `rigidbody_update_ob_array`, which (re)allocates the two index
arrays. -/
def BKE_rigidbody_do_simulation (rbw : RBWorldS) (ctime : ℚ) : RBWorldS × List SimEvent :=
  let startframe := rbw.pointcache.startframe
  let endframe := rbw.pointcache.endframe
  if ctime ≤ (startframe : ℚ) then
    let rbw1 := { rbw with rebuild_comp_con := true, ltime := (startframe : ℚ) }
    if rbw.object_changed then
      ({ rbw1 with refresh_modifiers := true, object_changed := false },
       [SimEvent.updateSim true])
    else (rbw1, [])
  else
    let ctime2 := if ctime > (endframe : ℚ) then (endframe : ℚ) else ctime
    if rbw.physics_world = none ∧ rbw.pointcache.flag_baked = false then (rbw, [])
    else
      let rbw1 := if !rbw.objects_present || !rbw.cache_index_map_present
        then { rbw with objects_present := true, cache_index_map_present := true }
        else rbw
      let ev1 := if !rbw.objects_present || !rbw.cache_index_map_present
        then [SimEvent.updateObArray] else []
      if rbw.pointcache.readOk ctime2 then
        ({ rbw1 with ltime := ctime2 },
         ev1 ++ [SimEvent.cacheValidate (cTruncInt ctime2)])
      else
        let ev2 := if rbw.ltime = (startframe : ℚ)
          then ev1 ++ [SimEvent.restoreKin, SimEvent.updateSim true]
          else ev1
        if ctime2 = rbw.ltime + 1 ∧ rbw.pointcache.flag_baked = false then
          let evW1 := if rbw.ltime = (startframe : ℚ)
              ∧ (rbw.pointcache.flag_outdated = true ∨ rbw.pointcache.last_exact = 0)
            then [SimEvent.cacheWrite startframe] else []
          let rbw3 := if rbw.ltime > (startframe : ℚ)
            then { rbw1 with rebuild_comp_con := false } else rbw1
          ({ rbw3 with ltime := ctime2 },
           ev2 ++ evW1
             ++ [SimEvent.updateSim false, SimEvent.stepSim, SimEvent.postStep,
                 SimEvent.cacheValidate (cTruncInt ctime2),
                 SimEvent.cacheWrite (cTruncInt ctime2)])
        else (rbw1, ev2)

/-- A concrete controller state: frames [0,2], world live, index arrays
present, cache empty (every read fails), last simulated time 1. -/
def exC1World : RBWorldS :=
  { ltime := 1, physics_world := some 1, objects_present := true,
    cache_index_map_present := true, object_changed := false,
    refresh_modifiers := false, rebuild_comp_con := false,
    pointcache :=
      { startframe := 0, endframe := 2, flag_outdated := false,
        flag_baked := false, last_exact := 5, readOk := fun _ => false } }

/-- C1 counterexample to the claim as stated: requesting `ctime = 10`, nine
frames past `ltime = 1`, still steps the engine once, because `ctime` is
first clamped to the cache end frame 2 = `ltime + 1`. -/
theorem C1_counterexample :
    (10 : ℚ) > exC1World.ltime + 1
    ∧ (BKE_rigidbody_do_simulation exC1World 10).2.count SimEvent.stepSim = 1 := by
  constructor
  · norm_num [exC1World]
  · norm_num [BKE_rigidbody_do_simulation, exC1World, cTruncInt]
    decide

/-- C1 (amended): per call the engine is stepped at most once; it is stepped
only when the requested time, clamped to the cache end frame, equals
`ltime + 1`, the cache is not baked, and the cache read at the clamped time
failed; and when the cache read at the clamped time succeeds (the call
having passed the start-frame and no-world guards), `ltime` is advanced to
the clamped time and no step occurs. -/
theorem C1_single_step_gated (rbw : RBWorldS) (ctime : ℚ) :
    ((BKE_rigidbody_do_simulation rbw ctime).2.count SimEvent.stepSim ≤ 1)
    ∧ ((BKE_rigidbody_do_simulation rbw ctime).2.count SimEvent.stepSim = 1 →
        (rbw.pointcache.startframe : ℚ) < ctime
        ∧ (if ctime > (rbw.pointcache.endframe : ℚ)
            then (rbw.pointcache.endframe : ℚ) else ctime) = rbw.ltime + 1
        ∧ rbw.pointcache.flag_baked = false
        ∧ rbw.pointcache.readOk
            (if ctime > (rbw.pointcache.endframe : ℚ)
              then (rbw.pointcache.endframe : ℚ) else ctime) = false)
    ∧ ((rbw.pointcache.startframe : ℚ) < ctime →
        ¬(rbw.physics_world = none ∧ rbw.pointcache.flag_baked = false) →
        rbw.pointcache.readOk
          (if ctime > (rbw.pointcache.endframe : ℚ)
            then (rbw.pointcache.endframe : ℚ) else ctime) = true →
        (BKE_rigidbody_do_simulation rbw ctime).1.ltime
          = (if ctime > (rbw.pointcache.endframe : ℚ)
              then (rbw.pointcache.endframe : ℚ) else ctime)
        ∧ (BKE_rigidbody_do_simulation rbw ctime).2.count SimEvent.stepSim = 0) := by
  by_cases h1 : ctime ≤ (rbw.pointcache.startframe : ℚ)
  · have hng : ¬ (rbw.pointcache.startframe : ℚ) < ctime := not_lt.mpr h1
    by_cases h2 : rbw.object_changed <;>
      simp [BKE_rigidbody_do_simulation, h1, h2, hng]
  · have hlt : (rbw.pointcache.startframe : ℚ) < ctime := lt_of_not_le h1
    by_cases h3 : rbw.physics_world = none ∧ rbw.pointcache.flag_baked = false
    · simp [BKE_rigidbody_do_simulation, h1, h3]
    · by_cases h4 : rbw.pointcache.readOk
        (if ctime > (rbw.pointcache.endframe : ℚ)
          then (rbw.pointcache.endframe : ℚ) else ctime) = true
      · refine ⟨?_, ?_, ?_⟩ <;>
          · simp only [BKE_rigidbody_do_simulation]
            rw [if_neg h1, if_neg h3, if_pos h4]
            simp [List.count_append, apply_ite (List.count SimEvent.stepSim)]
      · have h4f : rbw.pointcache.readOk
            (if ctime > (rbw.pointcache.endframe : ℚ)
              then (rbw.pointcache.endframe : ℚ) else ctime) = false := by
          cases hbb : rbw.pointcache.readOk
            (if ctime > (rbw.pointcache.endframe : ℚ)
              then (rbw.pointcache.endframe : ℚ) else ctime)
          · rfl
          · exact absurd hbb h4
        by_cases h5 : (if ctime > (rbw.pointcache.endframe : ℚ)
              then (rbw.pointcache.endframe : ℚ) else ctime) = rbw.ltime + 1
            ∧ rbw.pointcache.flag_baked = false
        · refine ⟨?_, ?_, ?_⟩
          · simp only [BKE_rigidbody_do_simulation]
            rw [if_neg h1, if_neg h3, if_neg h4, if_pos h5]
            simp [List.count_append, apply_ite (List.count SimEvent.stepSim)]
          · intro _
            exact ⟨hlt, h5.1, h5.2, h4f⟩
          · intro _ _ hro
            rw [h4f] at hro
            exact absurd hro (by decide)
        · refine ⟨?_, ?_, ?_⟩
          · simp only [BKE_rigidbody_do_simulation]
            rw [if_neg h1, if_neg h3, if_neg h4, if_neg h5]
            simp [List.count_append, apply_ite (List.count SimEvent.stepSim)]
          · intro hcount
            simp only [BKE_rigidbody_do_simulation] at hcount
            rw [if_neg h1, if_neg h3, if_neg h4, if_neg h5] at hcount
            simp [List.count_append, apply_ite (List.count SimEvent.stepSim)] at hcount
          · intro _ _ hro
            rw [h4f] at hro
            exact absurd hro (by decide)

/-- C7: with mass-dependent thresholds enabled and island maximum `M ≠ 0`,
`BKE_rigidbody_calc_threshold` stores `(m1+m2)/M * T` as the breaking
threshold of a constraint whose endpoints both carry rigid bodies, and the
stored threshold is monotone in the combined endpoint mass for combined
masses `mA < mB ≤ M` and a non-negative configured threshold `T`. -/
theorem C7_mass_dependent_threshold (rmd : FractureThreshCfg) (M : ℚ)
    (cA cB : ShardConThresh) (mA1 mA2 mB1 mB2 : ℚ)
    (hdep : rmd.use_mass_dependent_thresholds = true)
    (hM : M ≠ 0)
    (hA1 : cA.mi1 = some { rigidbody := some { mass := mA1 } })
    (hA2 : cA.mi2 = some { rigidbody := some { mass := mA2 } })
    (hB1 : cB.mi1 = some { rigidbody := some { mass := mB1 } })
    (hB2 : cB.mi2 = some { rigidbody := some { mass := mB2 } })
    (hT : 0 ≤ rmd.breaking_threshold)
    (h0 : 0 ≤ mA1 + mA2)
    (hAB : mA1 + mA2 < mB1 + mB2)
    (hBM : mB1 + mB2 ≤ M) :
    (BKE_rigidbody_calc_threshold M rmd cA).breaking_threshold
      = ((mA1 + mA2) / M) * rmd.breaking_threshold
    ∧ (BKE_rigidbody_calc_threshold M rmd cB).breaking_threshold
      = ((mB1 + mB2) / M) * rmd.breaking_threshold
    ∧ (BKE_rigidbody_calc_threshold M rmd cA).breaking_threshold
      ≤ (BKE_rigidbody_calc_threshold M rmd cB).breaking_threshold := by
  have hMpos : 0 < M := lt_of_lt_of_le (lt_of_le_of_lt h0 hAB) hBM
  have hEqA : (BKE_rigidbody_calc_threshold M rmd cA).breaking_threshold
      = ((mA1 + mA2) / M) * rmd.breaking_threshold := by
    simp [BKE_rigidbody_calc_threshold, hA1, hA2, hM, hdep]
  have hEqB : (BKE_rigidbody_calc_threshold M rmd cB).breaking_threshold
      = ((mB1 + mB2) / M) * rmd.breaking_threshold := by
    simp [BKE_rigidbody_calc_threshold, hB1, hB2, hM, hdep]
  refine ⟨hEqA, hEqB, ?_⟩
  rw [hEqA, hEqB]
  exact mul_le_mul_of_nonneg_right
    ((div_le_div_iff_of_pos_right hMpos).mpr (le_of_lt hAB)) hT

/-- Witness for C7 at concrete inputs: `M = 4`, `T = 10`, combined masses
`2 < 4 ≤ 4`. -/
theorem C7_mass_dependent_threshold_witness :
    (BKE_rigidbody_calc_threshold 4 { use_mass_dependent_thresholds := true, breaking_threshold := 10 }
      { mi1 := some { rigidbody := some { mass := 1 } },
        mi2 := some { rigidbody := some { mass := 1 } },
        breaking_threshold := 0 }).breaking_threshold
      = ((1 + 1) / 4) * 10
    ∧ (BKE_rigidbody_calc_threshold 4 { use_mass_dependent_thresholds := true, breaking_threshold := 10 }
      { mi1 := some { rigidbody := some { mass := 2 } },
        mi2 := some { rigidbody := some { mass := 2 } },
        breaking_threshold := 0 }).breaking_threshold
      = ((2 + 2) / 4) * 10
    ∧ (BKE_rigidbody_calc_threshold 4 { use_mass_dependent_thresholds := true, breaking_threshold := 10 }
      { mi1 := some { rigidbody := some { mass := 1 } },
        mi2 := some { rigidbody := some { mass := 1 } },
        breaking_threshold := 0 }).breaking_threshold
      ≤ (BKE_rigidbody_calc_threshold 4 { use_mass_dependent_thresholds := true, breaking_threshold := 10 }
      { mi1 := some { rigidbody := some { mass := 2 } },
        mi2 := some { rigidbody := some { mass := 2 } },
        breaking_threshold := 0 }).breaking_threshold :=
  C7_mass_dependent_threshold
    { use_mass_dependent_thresholds := true, breaking_threshold := 10 } 4
    _ _ 1 1 2 2 rfl (by norm_num) rfl rfl rfl rfl
    (by norm_num) (by norm_num) (by norm_num) (by norm_num)
